import Mathlib

/-!
Shallow embedding of `src/app.py` (PulseVest backend).

The file embeds, directly from the Python source:
  * `translate_response_for_frontend` (app.py lines 203-242): the response
    normalizer that turns the parsed Gemini JSON into the frontend payload;
  * the upload / poll / generate / delete pipeline of `analyze_audio`
    (lines 67-160) and `analyze_video` (lines 163-200), modelled against an
    oracle describing the external Gemini service's behaviour, producing an
    explicit trace of external effects;
  * the dispatch logic of `analyze_media` (lines 42-65);
  * the literal prompt strings of both pipelines.

Python values parsed from JSON are modelled by the inductive `Json`;
Python dicts are association lists in insertion order (keys unique in any
dict produced by `json.loads`), `dict.get` is first-match lookup, and
Python truthiness is `truthy`.
-/

/-- A parsed JSON value, as produced by Python's `json.loads`.
Numbers are rationals (covering both Python ints and the decimal floats
that appear in responses); objects are insertion-ordered association
lists. -/
inductive Json where
  | null : Json
  | bool (b : Bool) : Json
  | num (q : ℚ) : Json
  | str (s : String) : Json
  | arr (xs : List Json) : Json
  | obj (kvs : List (String × Json)) : Json

/-- Python truthiness (`bool(v)`) of a JSON value: `None`, `False`, `0`,
`""`, `[]` and `{}` are falsy, everything else truthy. -/
def truthy : Json → Bool
  | Json.null => false
  | Json.bool b => b
  | Json.num q => if q = 0 then false else true
  | Json.str s => if s = "" then false else true
  | Json.arr xs => if xs.isEmpty then false else true
  | Json.obj kvs => if kvs.isEmpty then false else true

/-- Python `d.get(k)` on a dict: the value under the first matching key,
or `None` (here `none`) when absent. -/
def dictGet (k : String) : List (String × Json) → Option Json
  | [] => none
  | (k', v) :: rest => if k' = k then some v else dictGet k rest

/-- Python `k in d` membership test on a dict. -/
def hasKey (k : String) (d : List (String × Json)) : Bool :=
  (dictGet k d).isSome

/-- Python truthiness of a `d.get(k)` result (`None` is falsy). -/
def optTruthy : Option Json → Bool
  | none => false
  | some v => truthy v

/-- Python's `a or b` on two `dict.get` results: `a` when truthy,
otherwise `b`. -/
def pyOr (a b : Option Json) : Option Json :=
  match a with
  | some v => if truthy v then some v else b
  | none => b

/-- Python `s.replace('_', ' ')`: every underscore becomes a space. -/
def pyReplaceUnderscores (s : String) : String :=
  String.mk (s.toList.map (fun c => if c = '_' then ' ' else c))

/-- One step of Python `str.title()`: a letter is uppercased when the
previous character was not cased (not a letter), lowercased otherwise. -/
def pyTitleAux : Bool → List Char → List Char
  | _, [] => []
  | prevCased, c :: cs =>
    if c.isAlpha then
      (if prevCased then c.toLower else c.toUpper) :: pyTitleAux true cs
    else
      c :: pyTitleAux false cs

/-- Python `s.title()` (for the ASCII strings this program handles). -/
def pyTitle (s : String) : String :=
  String.mk (pyTitleAux false s.toList)

/-- app.py line 221: `category_name = key.replace('_', ' ').title()`. -/
def formatCategoryName (key : String) : String :=
  pyTitle (pyReplaceUnderscores key)

/-- One element appended to `scores_for_frontend` (app.py lines 222-226):
the formatted category name and the raw `score` / `explanation` values
(no type or range constraint is applied to them). -/
structure ScoreEntry where
  category : String
  score : Json
  explanation : Json

/-- app.py lines 214-226: the `scores_for_frontend` accumulator.  An entry
of `analysis_data` contributes exactly when its value is a dict containing
both the exact keys `'score'` and `'explanation'`. -/
def scores_for_frontend : List (String × Json) → List ScoreEntry
  | [] => []
  | (key, value) :: rest =>
    match value with
    | Json.obj inner =>
      if hasKey "score" inner && hasKey "explanation" inner then
        { category := formatCategoryName key
          score := (dictGet "score" inner).getD Json.null
          explanation := (dictGet "explanation" inner).getD Json.null }
          :: scores_for_frontend rest
      else
        scores_for_frontend rest
    | _ => scores_for_frontend rest

/-- The two `ValueError`s `translate_response_for_frontend` can raise
(app.py lines 212 and 233). -/
inductive TranslateError where
  | analysisMissing : TranslateError
  | essentialDataMissing : TranslateError

/-- The `final_response` dict built at app.py lines 235-239. -/
structure FrontendResponse where
  pulseScore : Json
  suggestions : Option Json
  scores : List ScoreEntry

/-- app.py lines 203-242, `translate_response_for_frontend`:
  * `analysis_data = gemini_result.get("analysis")`; falsy or non-dict
    values raise `ValueError` (line 211-212);
  * category entries are collected by `scores_for_frontend`;
  * `pulse_score = analysis_data.get("pulse_score") or
    analysis_data.get("pulseScore")` (line 229), and similarly
    `suggestions` from `actionable_suggestions` / `suggestions` (line 230);
  * `if not pulse_score or not scores_for_frontend: raise ValueError`
    (lines 232-233);
  * otherwise the response dict is returned. -/
def translate_response_for_frontend (gemini_result : List (String × Json)) :
    Except TranslateError FrontendResponse :=
  match dictGet "analysis" gemini_result with
  | none => Except.error TranslateError.analysisMissing
  | some analysis_value =>
    if !truthy analysis_value then
      Except.error TranslateError.analysisMissing
    else
      match analysis_value with
      | Json.obj analysis_data =>
        let scores := scores_for_frontend analysis_data
        let pulse_score :=
          pyOr (dictGet "pulse_score" analysis_data)
            (dictGet "pulseScore" analysis_data)
        let suggestions :=
          pyOr (dictGet "actionable_suggestions" analysis_data)
            (dictGet "suggestions" analysis_data)
        if !optTruthy pulse_score || scores.isEmpty then
          Except.error TranslateError.essentialDataMissing
        else
          Except.ok
            { pulseScore := pulse_score.getD Json.null
              suggestions := suggestions
              scores := scores }
      | _ => Except.error TranslateError.analysisMissing

/-! ## The Gemini pipeline of `analyze_audio` / `analyze_video` -/

/-- The state of an uploaded Gemini file as reported by
`file.state.name`: `PROCESSING`, `ACTIVE` (ready), or `FAILED`. -/
inductive FileState where
  | processing : FileState
  | active : FileState
  | failed : FileState
deriving DecidableEq

/-- Oracle for one request's interaction with the external Gemini
service: the state the upload returns with, the state reported by the
`n`-th `genai.get_file` call, whether `model.generate_content` raises,
and the parsed JSON dict of the cleaned response text (`none` when
`json.loads` raises). -/
structure GeminiBehavior where
  uploadedState : FileState
  stateAfterPoll : Nat → FileState
  genRaises : Bool
  parsedResponse : Option (List (String × Json))

/-- Externally visible effects of one request, in order. -/
inductive Ev where
  | writeTempLocal : Ev
  | removeTempLocal : Ev
  | uploadRemote : Ev
  | sleepSec (d : Nat) : Ev
  | pollRemote : Ev
  | generate : Ev
  | deleteRemote : Ev
deriving DecidableEq

/-- The `while file.state.name == "PROCESSING": sleep; get_file` loop
(app.py lines 72-75 and 168-171), with explicit fuel since the source
loop is unbounded.  Returns the first non-`PROCESSING` state together
with the number of `get_file` calls made, or `none` when `fuel` polls
were not enough. -/
def pollFile (next : Nat → FileState) : Nat → FileState → Nat →
    Option (FileState × Nat)
  | 0, s, n => if s = FileState.processing then none else some (s, n)
  | fuel + 1, s, n =>
    if s = FileState.processing then pollFile next fuel (next n) (n + 1)
    else some (s, n)

/-- The effect trace of `n` iterations of the poll loop: each iteration
sleeps `d` seconds then calls `get_file`. -/
def pollEvents (d : Nat) : Nat → List Ev
  | 0 => []
  | n + 1 => Ev.sleepSec d :: Ev.pollRemote :: pollEvents d n

/-- The exceptions the audio/video pipeline can raise after the upload:
`ValueError` on `FAILED` processing (app.py line 77 / 173), an exception
out of `generate_content`, a `json.loads` failure on the cleaned text,
or a `ValueError` out of `translate_response_for_frontend`. -/
inductive PipeError where
  | processingFailed : PipeError
  | generateException : PipeError
  | jsonParseError : PipeError
  | translateError (e : TranslateError) : PipeError

/-- The shared body of `analyze_audio` (app.py 67-160) and
`analyze_video` (163-200), which differ only in the prompt text and the
poll delay `d` (5s for audio, 10s for video): upload, poll until the
state leaves `PROCESSING`, raise on `FAILED`, call `generate_content`,
delete the remote file only after generation returns, then parse and
translate the response.  Returns the ordered effect trace and the
outcome; `none` when the poll loop exceeds `fuel` iterations. -/
def geminiAnalyze (d fuel : Nat) (b : GeminiBehavior) :
    Option (List Ev × Except PipeError FrontendResponse) :=
  match pollFile b.stateAfterPoll fuel b.uploadedState 0 with
  | none => none
  | some (s, n) =>
    let ev0 := Ev.uploadRemote :: pollEvents d n
    if s = FileState.failed then
      some (ev0, Except.error PipeError.processingFailed)
    else if b.genRaises then
      some (ev0 ++ [Ev.generate], Except.error PipeError.generateException)
    else
      let ev1 := ev0 ++ [Ev.generate, Ev.deleteRemote]
      match b.parsedResponse with
      | none => some (ev1, Except.error PipeError.jsonParseError)
      | some j =>
        match translate_response_for_frontend j with
        | Except.error e => some (ev1, Except.error (PipeError.translateError e))
        | Except.ok fc => some (ev1, Except.ok fc)

/-- app.py lines 67-160: `analyze_audio` polls every 5 seconds. -/
def analyze_audio (fuel : Nat) (b : GeminiBehavior) :
    Option (List Ev × Except PipeError FrontendResponse) :=
  geminiAnalyze 5 fuel b

/-- app.py lines 163-200: `analyze_video` polls every 10 seconds. -/
def analyze_video (fuel : Nat) (b : GeminiBehavior) :
    Option (List Ev × Except PipeError FrontendResponse) :=
  geminiAnalyze 10 fuel b

/-- Python `s.startswith(p)`. -/
def pyStartswith (s p : String) : Bool :=
  p.toList.isPrefixOf s.toList

/-- Wrapping done by `analyze_media` around either pipeline: the local
temp file is written before dispatch (app.py lines 44-46) and removed in
the `finally` block (lines 63-65); every exception — including the
`HTTPException(400)` of the unsupported branch — is caught by
`except Exception` and re-raised as `HTTPException(500)` (lines 59-62). -/
def wrapHttp (r : Option (List Ev × Except PipeError FrontendResponse)) :
    Option (List Ev × Except Nat FrontendResponse) :=
  match r with
  | none => none
  | some (tr, Except.ok fc) =>
    some (Ev.writeTempLocal :: (tr ++ [Ev.removeTempLocal]), Except.ok fc)
  | some (tr, Except.error _) =>
    some (Ev.writeTempLocal :: (tr ++ [Ev.removeTempLocal]), Except.error 500)

/-- app.py lines 42-65, `analyze_media`: write the temp file, then
dispatch on the declared MIME type: `audio/*` and `video/*` run the two
pipelines; anything else raises `HTTPException(400, ...)`, which the
surrounding `except Exception` converts into status 500.  The outcome is
the HTTP status on failure. -/
def analyze_media (fuel : Nat) (b : GeminiBehavior) (mime : String) :
    Option (List Ev × Except Nat FrontendResponse) :=
  if pyStartswith mime "audio/" then wrapHttp (analyze_audio fuel b)
  else if pyStartswith mime "video/" then wrapHttp (analyze_video fuel b)
  else some ([Ev.writeTempLocal, Ev.removeTempLocal], Except.error 500)

/-! ## The literal prompt strings -/

/-- app.py lines 81-149: the audio prompt, line by line.  The Python
triple-quoted literal opens with a newline and closes after a four-space
indent, hence the leading `""` and trailing `"    "` elements. -/
def audioPromptLines : List String :=
  ["",
   "    Role: You are an expert A&R executive and music producer specializing in the contemporary African music scene. Your task is to provide a detailed, data-driven analysis of an audio track.",
   "",
   "Input: An audio file.",
   "",
   "Output: Your entire response must be a single, valid JSON object. Do not include any text or explanations outside of the JSON structure.",
   "",
   "JSON Structure template and Instructions:",
   "",
   "\x7b",
   "  \"Rhythm_Groove_Quality\": \x7b",
   "    \"score\": \"integer (0-100)\",",
   "    \"explanation\": \"string\"",
   "  \x7d,",
   "  \"Sound_Production_Quality\": \x7b",
   "    \"score\": \"integer (0-100)\",",
   "    \"explanation\": \"string\"",
   "  \x7d,",
   "  \"Lyrical_Content_Vocal_Delivery\": \x7b",
   "    \"score\": \"integer (0-100)\",",
   "    \"explanation\": \"string\"",
   "  \x7d,",
   "  \"Market_Potential\": \x7b",
   "    \"score\": \"integer (0-100)\",",
   "    \"explanation\": \"string\"",
   "  \x7d,",
   "  \"pulse_score\": \"float (rounded to one decimal place)\",",
   "  \"actionable_suggestions\": \"string\"",
   "\x7d",
   "Detailed Instructions for Each Key:",
   "",
   "Rhythm_Groove_Quality:",
   "",
   "Score: Assign an integer from 0-100.",
   "",
   "Explanation: Provide a concise rationale assessing the track\x27s rhythmic foundation. Analyze the drum programming (e.g., the bounce, pattern complexity, sound selection), the bassline\x27s effectiveness in locking in with the drums, and the overall \"pocket\" or groove. Consider its effectiveness within genres like Afrobeats, Amapiano, or Afropop.",
   "",
   "Sound_Production_Quality:",
   "",
   "Score: Assign an integer from 0-100.",
   "",
   "Explanation: Scrutinize the technical aspects of the production. Analyze the mix balance, clarity, stereo imaging, and dynamic range. Does it sound polished and professional enough to compete on major streaming playlists and radio? Is it \"radio-ready\"?",
   "",
   "Lyrical_Content_Vocal_Delivery:",
   "",
   "Score: Assign an integer from 0-100.",
   "",
   "Explanation:",
   "",
   "If vocals are present: Analyze the lyrical theme, storytelling, and depth. Evaluate the artist\x27s vocal performance, focusing on diction, flow, pitch accuracy, emotional conviction, and tone.",
   "",
   "If the track is instrumental: Judge the track\x27s \"vibe\" and emotional weight. Assess how well lyrics and a lead vocal could potentially sit on the instrumental. Is there space for a vocalist? Does the melody suggest a strong hook? The score should reflect its potential as a compelling backing track for an Afrobeats or Pop artist.",
   "",
   "Market_Potential:",
   "",
   "Score: Assign an integer from 0-100.",
   "",
   "Explanation: Forecast the track\x27s commercial viability specifically within the African music market. Analyze its potential to succeed in genres like Afrobeats and Afropop. Consider its appeal for radio play in key markets (e.g., Nigeria, Ghana, South Africa), its potential for inclusion in major streaming playlists (e.g., Spotify\x27s \x27African Heat\x27), and its viral potential on platforms like TikTok and Instagram Reels. Does it have a memorable hook or instrumental motif that could trend?",
   "",
   "pulse_score:",
   "",
   "Calculate the average of the four scores above (Rhythm_Groove_Quality, Sound_Production_Quality, Lyrical_Content_Vocal_Delivery, Market_Potential).",
   "",
   "The result must be a floating-point number, rounded to one decimal place.",
   "",
   "actionable_suggestions:",
   "",
   "Provide a single string containing specific, constructive, and practical feedback for the artist. The suggestions should directly address the weakest points identified in the analysis to help improve the track. For example: \"The bassline is powerful but slightly clashes with the kick drum\x27s low-end; try sidechain compression or a subtle EQ cut on the bass around 80Hz. To boost market appeal, consider adding a simple, repeatable log drum melody in the chorus for better TikTok potential.\"",
   "    "]

/-- The audio prompt string passed to `model.generate_content` in
`analyze_audio`. -/
def audioPrompt : String :=
  String.intercalate "\n" audioPromptLines

/-- app.py lines 177-190: the video prompt, line by line. -/
def videoPromptLines : List String :=
  ["",
   "    You are an expert film critic for PulseVest. Based ONLY on the video content, provide a detailed assessment in a valid JSON object. Do not include any text or markdown formatting outside of the JSON structure.",
   "",
   "    Your JSON output must have a single top-level key: \"analysis\".",
   "",
   "    The \"analysis\" object must contain the following keys:",
   "",
   "    1.  \"Storyline_Narrative\": An object with \"score\" (integer 0-100) and \"explanation\" (a concise rationale).",
   "    2.  \"Acting_Quality\": An object with \"score\" and \"explanation\".",
   "    3.  \"Market_Potential\": An object with \"score\" and \"explanation\".",
   "    4.  \"Cinematography_Visuals\": An object with \"score\" and \"explanation\".",
   "    5.  \"pulse_score\": A floating-point number, rounded to one decimal place, representing the average of the four scores.",
   "    6.  \"suggestions\": A single string of actionable feedback for the filmmaker.",
   "    "]

/-- The video prompt string passed to `model.generate_content` in
`analyze_video`. -/
def videoPrompt : String :=
  String.intercalate "\n" videoPromptLines

/-- Index of the first occurrence of `pat` in `s` (as character lists),
scanning from offset `i`. -/
def findSubAux (pat : List Char) : List Char → Nat → Option Nat
  | [], i => if pat.isEmpty then some i else none
  | c :: cs, i =>
    if pat.isPrefixOf (c :: cs) then some i else findSubAux pat cs (i + 1)

/-- Index of the first occurrence of `pat` in `s`, or `none`. -/
def firstIdx (s pat : String) : Option Nat :=
  findSubAux pat.toList s.toList 0

/-- `a` occurs in `s`, `b` occurs in `s`, and the first occurrence of
`a` is strictly before the first occurrence of `b`. -/
def occursBefore (s a b : String) : Bool :=
  match firstIdx s a, firstIdx s b with
  | some i, some j => decide (i < j)
  | _, _ => false

/-! ## Concrete payloads used by the claim theorems -/

/-- Four category entries with scores 70, 80, 60, 90 and no aggregate
key, mirroring the spec example "scores [70, 80, 60, 90] with no
explicit aggregate key". -/
def noAggregateData : List (String × Json) :=
  [("Rhythm_Groove_Quality", Json.obj
     [("score", Json.num 70), ("explanation", Json.str "a")]),
   ("Sound_Production_Quality", Json.obj
     [("score", Json.num 80), ("explanation", Json.str "b")]),
   ("Lyrical_Content_Vocal_Delivery", Json.obj
     [("score", Json.num 60), ("explanation", Json.str "c")]),
   ("Market_Potential", Json.obj
     [("score", Json.num 90), ("explanation", Json.str "d")])]

/-- The wrapped response carrying `noAggregateData`. -/
def noAggregatePayload : List (String × Json) :=
  [("analysis", Json.obj noAggregateData)]

/-- A response whose aggregate sits under the key `aggKey` with value
75, next to one well-formed category entry. -/
def aggregateKeyPayload (aggKey : String) : List (String × Json) :=
  [("analysis", Json.obj
    [("Acting_Quality", Json.obj
       [("score", Json.num 80), ("explanation", Json.str "x")]),
     (aggKey, Json.num 75)])]

/-- Analysis data containing a category score of 150 (out of range)
and an explicit in-range aggregate. -/
def outOfRangeData : List (String × Json) :=
  [("Acting_Quality", Json.obj
     [("score", Json.num 150), ("explanation", Json.str "x")]),
   ("pulse_score", Json.num 75)]

/-- The wrapped response carrying `outOfRangeData`. -/
def outOfRangePayload : List (String × Json) :=
  [("analysis", Json.obj outOfRangeData)]

/-- An unwrapped response: the category entries and the aggregate sit at
the top level, with no "analysis" wrapper key. -/
def unwrappedPayload : List (String × Json) :=
  [("Rhythm_Groove_Quality", Json.obj
     [("score", Json.num 70), ("explanation", Json.str "a")]),
   ("Market_Potential", Json.obj
     [("score", Json.num 90), ("explanation", Json.str "d")]),
   ("pulse_score", Json.num 80)]

/-- Analysis data whose only category-shaped entry spells the score
field `"Score"` (capital S) instead of `"score"`. -/
def capitalScoreData : List (String × Json) :=
  [("Acting_Quality", Json.obj
     [("Score", Json.num 80), ("explanation", Json.str "x")]),
   ("pulse_score", Json.num 80)]

/-- The wrapped response carrying `capitalScoreData`. -/
def capitalScorePayload : List (String × Json) :=
  [("analysis", Json.obj capitalScoreData)]

/-- Analysis data with one category entry and an explicit aggregate
whose numeric value is 0. -/
def zeroAggregateData : List (String × Json) :=
  [("Acting_Quality", Json.obj
     [("score", Json.num 10), ("explanation", Json.str "x")]),
   ("pulse_score", Json.num 0)]

/-- The wrapped response carrying `zeroAggregateData`. -/
def zeroAggregatePayload : List (String × Json) :=
  [("analysis", Json.obj zeroAggregateData)]

/-! ## Service behaviors used by the claim theorems -/

/-- A behavior whose upload enters `PROCESSING` and whose first poll
reports `FAILED`. -/
def failedProcessingBehavior : GeminiBehavior :=
  { uploadedState := FileState.processing
    stateAfterPoll := fun _ => FileState.failed
    genRaises := false
    parsedResponse := some [] }

/-- A behavior whose file is ready at once but whose
`generate_content` call raises. -/
def generateRaisesBehavior : GeminiBehavior :=
  { uploadedState := FileState.active
    stateAfterPoll := fun _ => FileState.active
    genRaises := true
    parsedResponse := some [] }

/-- A behavior whose file is ready at once and whose generation
succeeds. -/
def okBehavior : GeminiBehavior :=
  { uploadedState := FileState.active
    stateAfterPoll := fun _ => FileState.active
    genRaises := false
    parsedResponse := some [] }

/-! ## Helper lemmas about the normalizer -/

/-- When the resolved aggregate (`pulse_score or pulseScore`) is falsy,
`translate_response_for_frontend` raises the "essential data" error. -/
lemma translate_falsyAggregate_error (g kvs : List (String × Json))
    (h1 : dictGet "analysis" g = some (Json.obj kvs))
    (h2 : truthy (Json.obj kvs) = true)
    (h3 : optTruthy
      (pyOr (dictGet "pulse_score" kvs) (dictGet "pulseScore" kvs)) = false) :
    translate_response_for_frontend g =
      Except.error TranslateError.essentialDataMissing := by
  unfold translate_response_for_frontend
  rw [h1]
  simp [h2, h3]

/-- When the resolved aggregate is a truthy value `v` and at least one
category entry was found, `translate_response_for_frontend` succeeds and
returns `v` as `pulseScore`, the resolved suggestions, and the collected
categories, untouched. -/
lemma translate_ok_of (g kvs : List (String × Json)) (v : Json)
    (h1 : dictGet "analysis" g = some (Json.obj kvs))
    (h2 : truthy (Json.obj kvs) = true)
    (hv : pyOr (dictGet "pulse_score" kvs) (dictGet "pulseScore" kvs) = some v)
    (htv : truthy v = true)
    (hs : (scores_for_frontend kvs).isEmpty = false) :
    translate_response_for_frontend g =
      Except.ok
        { pulseScore := v
          suggestions :=
            pyOr (dictGet "actionable_suggestions" kvs)
              (dictGet "suggestions" kvs)
          scores := scores_for_frontend kvs } := by
  unfold translate_response_for_frontend
  rw [h1]
  simp [h2, hv, htv, hs, optTruthy]

/-- Nonempty collected categories force a nonempty analysis dict. -/
lemma truthy_obj_of_scores_nonempty (kvs : List (String × Json))
    (hs : (scores_for_frontend kvs).isEmpty = false) :
    truthy (Json.obj kvs) = true := by
  cases kvs with
  | nil => simp [scores_for_frontend] at hs
  | cons hd tl => simp [truthy]

/-! ## Pipeline helper lemmas -/

/-- `deleteRemote` never appears among the poll-loop events. -/
lemma deleteRemote_not_mem_pollEvents (d n : Nat) :
    Ev.deleteRemote ∉ pollEvents d n := by
  induction n with
  | zero => simp [pollEvents]
  | succ k ih => simp [pollEvents]; exact ih

/-- The poll loop returns immediately on a non-`PROCESSING` state. -/
lemma pollFile_stop (next : Nat → FileState) (fuel n : Nat) (s : FileState)
    (h : s ≠ FileState.processing) : pollFile next fuel s n = some (s, n) := by
  cases fuel <;> simp [pollFile, h]

/-- If the service reports `PROCESSING` for the polls at indices
`n, ..., n + m - 1` and something else at index `n + m`, the loop
terminates after exactly `m + 1` `get_file` calls (given enough fuel). -/
lemma pollFile_run (next : Nat → FileState) (m : Nat) :
    ∀ n fuel, (∀ k, n ≤ k → k < n + m → next k = FileState.processing) →
      next (n + m) ≠ FileState.processing → m + 1 ≤ fuel →
      pollFile next fuel FileState.processing n =
        some (next (n + m), n + m + 1) := by
  induction m with
  | zero =>
    intro n fuel hpre hstop hfuel
    obtain ⟨f, rfl⟩ : ∃ f, fuel = f + 1 := ⟨fuel - 1, by omega⟩
    have h0 : next n ≠ FileState.processing := by simpa using hstop
    simp only [pollFile, if_pos]
    rw [pollFile_stop next f (n + 1) (next n) h0]
    simp
  | succ m ih =>
    intro n fuel hpre hstop hfuel
    obtain ⟨f, rfl⟩ : ∃ f, fuel = f + 1 := ⟨fuel - 1, by omega⟩
    have hn : next n = FileState.processing := hpre n (Nat.le_refl n) (by omega)
    simp only [pollFile, if_pos]
    rw [hn]
    have hrec := ih (n + 1) f
      (fun k h1 h2 => hpre k (by omega) (by omega))
      (by have he : n + 1 + m = n + (m + 1) := by omega
          rw [he]; exact hstop)
      (by omega)
    rw [hrec]
    have he : n + 1 + m = n + (m + 1) := by omega
    rw [he]

/-- With a service that reports `PROCESSING` forever, the loop never
exits, whatever the fuel. -/
lemma pollFile_allProcessing (fuel : Nat) :
    ∀ n, pollFile (fun _ => FileState.processing) fuel FileState.processing n =
      none := by
  induction fuel with
  | zero => intro n; simp [pollFile]
  | succ f ih => intro n; simp only [pollFile, if_pos]; exact ih (n + 1)

/-! ## Claim C1 -/

/-- C1 (counterexample): the claim says a payload with category scores
[70, 80, 60, 90] and no aggregate key normalizes to pulseScore = 75.0
(mean fallback).  In the code there is no mean fallback:
`translate_response_for_frontend` raises `ValueError` on this payload. -/
theorem C1_counterexample :
    translate_response_for_frontend noAggregatePayload =
      Except.error TranslateError.essentialDataMissing := rfl

/-- C1 (amended): for every parsed response whose payload lacks a truthy
value under the exact keys "pulse_score" / "pulseScore", the normalizer
raises `ValueError` ("Could not parse essential data") instead of
computing the mean of the category scores; in particular the
[70, 80, 60, 90] payload with no aggregate key fails. -/
theorem C1_amended (g kvs : List (String × Json))
    (h1 : dictGet "analysis" g = some (Json.obj kvs))
    (h2 : truthy (Json.obj kvs) = true)
    (h3 : optTruthy
      (pyOr (dictGet "pulse_score" kvs) (dictGet "pulseScore" kvs)) = false) :
    translate_response_for_frontend g =
      Except.error TranslateError.essentialDataMissing :=
  translate_falsyAggregate_error g kvs h1 h2 h3

/-- C1 (witness): `C1_amended` applied to the concrete [70, 80, 60, 90]
payload with no aggregate key. -/
theorem C1_witness :
    translate_response_for_frontend noAggregatePayload =
      Except.error TranslateError.essentialDataMissing :=
  C1_amended noAggregatePayload noAggregateData rfl rfl rfl

/-! ## Claim C2 -/

/-- C2 (counterexample): the claim says the aggregate keys "Pulse_Score",
"pulse score" and "PulseScore" are all accepted.  The code only checks
the exact keys "pulse_score" and "pulseScore", so all three payloads fail
with `ValueError` even though a category entry and an in-range aggregate
value are present. -/
theorem C2_counterexample :
    translate_response_for_frontend (aggregateKeyPayload "Pulse_Score") =
        Except.error TranslateError.essentialDataMissing ∧
      translate_response_for_frontend (aggregateKeyPayload "pulse score") =
        Except.error TranslateError.essentialDataMissing ∧
      translate_response_for_frontend (aggregateKeyPayload "PulseScore") =
        Except.error TranslateError.essentialDataMissing :=
  ⟨rfl, rfl, rfl⟩

/-- C2 (amended): the normalizer recognizes the aggregate field only
under the two exact keys "pulse_score" and "pulseScore" (tried in that
order); when one of them holds a truthy value and a category entry was
found, that value is returned as `pulseScore`.  Other casing/separator
variants such as "Pulse_Score", "pulse score" or "PulseScore" are not
recognized. -/
theorem C2_amended (g kvs : List (String × Json)) (v : Json)
    (h1 : dictGet "analysis" g = some (Json.obj kvs))
    (htv : truthy v = true)
    (hs : (scores_for_frontend kvs).isEmpty = false) :
    (dictGet "pulse_score" kvs = some v →
      translate_response_for_frontend g =
        Except.ok
          { pulseScore := v
            suggestions :=
              pyOr (dictGet "actionable_suggestions" kvs)
                (dictGet "suggestions" kvs)
            scores := scores_for_frontend kvs }) ∧
    (dictGet "pulse_score" kvs = none →
      dictGet "pulseScore" kvs = some v →
      translate_response_for_frontend g =
        Except.ok
          { pulseScore := v
            suggestions :=
              pyOr (dictGet "actionable_suggestions" kvs)
                (dictGet "suggestions" kvs)
            scores := scores_for_frontend kvs }) := by
  have h2 := truthy_obj_of_scores_nonempty kvs hs
  refine ⟨fun ha => ?_, fun ha hb => ?_⟩
  · exact translate_ok_of g kvs v h1 h2 (by simp [pyOr, ha, htv]) htv hs
  · exact translate_ok_of g kvs v h1 h2 (by simp [pyOr, ha, hb]) htv hs

/-- C2 (witness): `C2_amended` applied to concrete payloads where the
aggregate 75 sits under "pulse_score" and under "pulseScore"
respectively; both are accepted. -/
theorem C2_witness :
    translate_response_for_frontend (aggregateKeyPayload "pulse_score") =
        Except.ok
          { pulseScore := Json.num 75
            suggestions := none
            scores := [{ category := "Acting Quality"
                         score := Json.num 80
                         explanation := Json.str "x" }] } ∧
      translate_response_for_frontend (aggregateKeyPayload "pulseScore") =
        Except.ok
          { pulseScore := Json.num 75
            suggestions := none
            scores := [{ category := "Acting Quality"
                         score := Json.num 80
                         explanation := Json.str "x" }] } :=
  ⟨(C2_amended (aggregateKeyPayload "pulse_score")
      [("Acting_Quality", Json.obj
         [("score", Json.num 80), ("explanation", Json.str "x")]),
       ("pulse_score", Json.num 75)] (Json.num 75) rfl rfl rfl).1 rfl,
   (C2_amended (aggregateKeyPayload "pulseScore")
      [("Acting_Quality", Json.obj
         [("score", Json.num 80), ("explanation", Json.str "x")]),
       ("pulseScore", Json.num 75)] (Json.num 75) rfl rfl rfl).2 rfl rfl⟩

/-! ## Claim C3 -/

/-- C3 (counterexample): the claim says a payload containing a category
score of 150 fails validation.  The code performs no range check: the
150-score payload is returned as a success, the out-of-range score
included. -/
theorem C3_counterexample :
    translate_response_for_frontend outOfRangePayload =
      Except.ok
        { pulseScore := Json.num 75
          suggestions := none
          scores := [{ category := "Acting Quality"
                       score := Json.num 150
                       explanation := Json.str "x" }] } := rfl

/-- C3 (amended): the normalizer returns a response exactly when the
analysis dict is truthy (non-empty), the resolved aggregate value is
truthy, and at least one category entry was found; the category scores
are passed through with no range check, so a score of 150 passes. -/
theorem C3_amended (g kvs : List (String × Json))
    (h1 : dictGet "analysis" g = some (Json.obj kvs)) :
    (∃ fc, translate_response_for_frontend g = Except.ok fc ∧
        fc.scores = scores_for_frontend kvs) ↔
      (truthy (Json.obj kvs) = true ∧
        optTruthy
          (pyOr (dictGet "pulse_score" kvs) (dictGet "pulseScore" kvs)) =
            true ∧
        (scores_for_frontend kvs).isEmpty = false) := by
  constructor
  · rintro ⟨fc, hfc, -⟩
    unfold translate_response_for_frontend at hfc
    rw [h1] at hfc
    by_cases h2 : truthy (Json.obj kvs) = true
    · refine ⟨h2, ?_⟩
      by_cases hp : optTruthy
          (pyOr (dictGet "pulse_score" kvs) (dictGet "pulseScore" kvs)) = true
      · refine ⟨hp, ?_⟩
        by_cases hs : (scores_for_frontend kvs).isEmpty = true
        · simp [h2, hp, hs] at hfc
        · simpa using hs
      · have hp' : optTruthy
            (pyOr (dictGet "pulse_score" kvs) (dictGet "pulseScore" kvs)) =
              false := by simpa using hp
        simp [h2, hp'] at hfc
    · have h2' : truthy (Json.obj kvs) = false := by simpa using h2
      simp [h2'] at hfc
  · rintro ⟨h2, hp, hs⟩
    obtain ⟨v, hv, htv⟩ : ∃ v,
        pyOr (dictGet "pulse_score" kvs) (dictGet "pulseScore" kvs) = some v ∧
          truthy v = true := by
      cases hpo : pyOr (dictGet "pulse_score" kvs) (dictGet "pulseScore" kvs)
        with
      | none => rw [hpo] at hp; simp [optTruthy] at hp
      | some v =>
        rw [hpo] at hp
        exact ⟨v, rfl, by simpa [optTruthy] using hp⟩
    exact ⟨_, translate_ok_of g kvs v h1 h2 hv htv hs, rfl⟩

/-- C3 (witness): `C3_amended` applied to the concrete payload whose
only category score is 150: all three success conditions hold there, so
a response is returned despite the out-of-range score. -/
theorem C3_witness :
    ∃ fc, translate_response_for_frontend outOfRangePayload = Except.ok fc ∧
      fc.scores = scores_for_frontend outOfRangeData :=
  (C3_amended outOfRangePayload outOfRangeData rfl).mpr ⟨rfl, rfl, rfl⟩

/-! ## Claim C4 -/

/-- C4 (counterexample): the claim says a structure without a recognized
wrapper key is treated as the payload itself, so an unwrapped response
with top-level category entries still normalizes.  The code requires the
"analysis" key unconditionally: the unwrapped payload fails with
`ValueError` even though it carries category entries and an aggregate. -/
theorem C4_counterexample :
    translate_response_for_frontend unwrappedPayload =
      Except.error TranslateError.analysisMissing := rfl

/-- C4 (amended): the normalizer never falls back to the top level: for
every parsed structure lacking the "analysis" key it raises the
"'analysis' key was not found" `ValueError`. -/
theorem C4_amended (g : List (String × Json))
    (h : dictGet "analysis" g = none) :
    translate_response_for_frontend g =
      Except.error TranslateError.analysisMissing := by
  unfold translate_response_for_frontend
  rw [h]

/-- C4 (witness): `C4_amended` applied to the concrete unwrapped
payload. -/
theorem C4_witness :
    translate_response_for_frontend unwrappedPayload =
      Except.error TranslateError.analysisMissing :=
  C4_amended unwrappedPayload rfl

/-! ## Claim C5 -/

/-- C5 (counterexample): the claim says the score-like field of a
category entry is matched case-insensitively and
separator-insensitively.  The code tests the exact lowercase keys: an
entry spelling the field `"Score"` produces no category, and the payload
whose only category-shaped entry does so fails entirely. -/
theorem C5_counterexample :
    scores_for_frontend capitalScoreData = [] ∧
      translate_response_for_frontend capitalScorePayload =
        Except.error TranslateError.essentialDataMissing :=
  ⟨rfl, rfl⟩

/-- C5 (amended): a first-level entry becomes a category exactly when
its value is a dict containing both exact keys "score" and
"explanation" (case-sensitive, no separator tolerance); the display name
is the entry key with underscores (only) replaced by spaces and
title-cased; entries lacking either exact field, or whose value is not a
dict, produce no category. -/
theorem C5_amended (k : String) (inner rest : List (String × Json)) :
    (hasKey "score" inner = true → hasKey "explanation" inner = true →
      scores_for_frontend ((k, Json.obj inner) :: rest) =
        { category := formatCategoryName k
          score := (dictGet "score" inner).getD Json.null
          explanation := (dictGet "explanation" inner).getD Json.null }
          :: scores_for_frontend rest) ∧
    (hasKey "score" inner = false ∨ hasKey "explanation" inner = false →
      scores_for_frontend ((k, Json.obj inner) :: rest) =
        scores_for_frontend rest) ∧
    (∀ v : Json, (∀ kvs2 : List (String × Json), v ≠ Json.obj kvs2) →
      scores_for_frontend ((k, v) :: rest) = scores_for_frontend rest) := by
  refine ⟨fun ha hb => ?_, fun h => ?_, fun v hv => ?_⟩
  · simp [scores_for_frontend, ha, hb]
  · rcases h with ha | ha <;> simp [scores_for_frontend, ha]
  · cases v with
    | obj kvs2 => exact absurd rfl (hv kvs2)
    | null => simp [scores_for_frontend]
    | bool b => simp [scores_for_frontend]
    | num q => simp [scores_for_frontend]
    | str s => simp [scores_for_frontend]
    | arr xs => simp [scores_for_frontend]

/-- C5 (witness): `C5_amended` applied to a concrete entry with the
exact fields: the key "Acting_Quality" yields the display name
"Acting Quality". -/
theorem C5_witness :
    scores_for_frontend
      [("Acting_Quality", Json.obj
         [("score", Json.num 80), ("explanation", Json.str "x")])] =
      [{ category := "Acting Quality"
         score := Json.num 80
         explanation := Json.str "x" }] :=
  (C5_amended "Acting_Quality"
    [("score", Json.num 80), ("explanation", Json.str "x")] []).1 rfl rfl

/-! ## Claim C10 -/

/-- C10 (confirmed): the code tests the explicit aggregate by Python
truthiness, so a payload whose aggregate key is present with the numeric
value 0 — in range — and which contains at least one category entry
fails with `ValueError` instead of returning a response with
pulseScore 0. -/
theorem C10_theorem (g kvs : List (String × Json))
    (h1 : dictGet "analysis" g = some (Json.obj kvs))
    (hp : dictGet "pulse_score" kvs = none ∨
      dictGet "pulse_score" kvs = some (Json.num 0))
    (hq : dictGet "pulseScore" kvs = none ∨
      dictGet "pulseScore" kvs = some (Json.num 0))
    (_hpr : dictGet "pulse_score" kvs = some (Json.num 0) ∨
      dictGet "pulseScore" kvs = some (Json.num 0))
    (hs : (scores_for_frontend kvs).isEmpty = false) :
    translate_response_for_frontend g =
      Except.error TranslateError.essentialDataMissing := by
  have h2 := truthy_obj_of_scores_nonempty kvs hs
  have h3 : optTruthy
      (pyOr (dictGet "pulse_score" kvs) (dictGet "pulseScore" kvs)) = false := by
    rcases hp with hp | hp <;> rcases hq with hq | hq <;>
      simp [pyOr, hp, hq, optTruthy, truthy]
  exact translate_falsyAggregate_error g kvs h1 h2 h3

/-- C10 (witness): `C10_theorem` applied to the concrete payload with
one category entry and `"pulse_score": 0`. -/
theorem C10_witness :
    translate_response_for_frontend zeroAggregatePayload =
      Except.error TranslateError.essentialDataMissing :=
  C10_theorem zeroAggregatePayload zeroAggregateData rfl (Or.inr rfl)
    (Or.inl rfl) (Or.inl rfl) rfl

/-! ## Claim C6 -/

/-- C6 (counterexample): the claim says the uploaded remote file is
deleted on every exit path.  In the code `genai.delete_file` is only
reached after `generate_content` returns: when processing ends `FAILED`,
or when generation raises, the trace contains the upload but no
deletion. -/
theorem C6_counterexample :
    analyze_audio 2 failedProcessingBehavior =
        some ([Ev.uploadRemote, Ev.sleepSec 5, Ev.pollRemote],
          Except.error PipeError.processingFailed) ∧
      analyze_audio 1 generateRaisesBehavior =
        some ([Ev.uploadRemote, Ev.generate],
          Except.error PipeError.generateException) ∧
      Ev.deleteRemote ∉ [Ev.uploadRemote, Ev.sleepSec 5, Ev.pollRemote] ∧
      Ev.deleteRemote ∉ [Ev.uploadRemote, Ev.generate] :=
  ⟨rfl, rfl, by decide, by decide⟩

/-- C6 (amended): the uploaded remote file is deleted exactly on the
path where polling ends in a non-`FAILED` state and `generate_content`
returns without raising; on processing failure or a generation
exception the remote file is leaked (and the local temp file is still
removed by `analyze_media`'s `finally`). -/
theorem C6_amended (d fuel : Nat) (b : GeminiBehavior) (tr : List Ev)
    (r : Except PipeError FrontendResponse)
    (h : geminiAnalyze d fuel b = some (tr, r)) :
    Ev.deleteRemote ∈ tr ↔
      ((∃ s n, pollFile b.stateAfterPoll fuel b.uploadedState 0 = some (s, n) ∧
          s ≠ FileState.failed) ∧
        b.genRaises = false) := by
  unfold geminiAnalyze at h
  cases hpoll : pollFile b.stateAfterPoll fuel b.uploadedState 0 with
  | none =>
    rw [hpoll] at h
    exact absurd h (by simp)
  | some sn =>
    obtain ⟨s, n⟩ := sn
    rw [hpoll] at h
    by_cases hf : s = FileState.failed
    · subst hf
      simp at h
      obtain ⟨htr, -⟩ := h
      constructor
      · intro hmem
        rw [← htr] at hmem
        simp at hmem
        exact absurd hmem (deleteRemote_not_mem_pollEvents d n)
      · rintro ⟨⟨s', n', hps, hsf⟩, -⟩
        obtain ⟨h1, -⟩ : FileState.failed = s' ∧ n = n' := by simpa using hps
        exact absurd h1.symm hsf
    · by_cases hg : b.genRaises = true
      · simp [hf, hg] at h
        obtain ⟨htr, -⟩ := h
        constructor
        · intro hmem
          rw [← htr] at hmem
          simp at hmem
          exact absurd hmem (deleteRemote_not_mem_pollEvents d n)
        · rintro ⟨-, hg'⟩
          rw [hg] at hg'
          exact absurd hg' (by simp)
      · have hg' : b.genRaises = false := by simpa using hg
        have htr : tr = Ev.uploadRemote ::
            (pollEvents d n ++ [Ev.generate, Ev.deleteRemote]) := by
          cases hpr : b.parsedResponse with
          | none =>
            rw [hpr] at h
            simp [hf, hg'] at h
            exact h.1.symm
          | some j =>
            rw [hpr] at h
            simp only [hf, hg'] at h
            cases htj : translate_response_for_frontend j with
            | error e =>
              rw [htj] at h
              simp at h
              exact h.1.symm
            | ok fc =>
              rw [htj] at h
              simp at h
              exact h.1.symm
        subst htr
        constructor
        · intro _
          exact ⟨⟨s, n, rfl, hf⟩, hg'⟩
        · intro _
          simp

/-- C6 (witness): `C6_amended` applied to a concrete successful run:
the remote file is deleted on the success path. -/
theorem C6_witness :
    Ev.deleteRemote ∈ [Ev.uploadRemote, Ev.generate, Ev.deleteRemote] :=
  (C6_amended 5 1 okBehavior [Ev.uploadRemote, Ev.generate, Ev.deleteRemote]
      (Except.error (PipeError.translateError TranslateError.analysisMissing))
      rfl).mpr
    ⟨⟨FileState.active, 0, rfl, by decide⟩, rfl⟩

/-! ## Claim C7 -/

/-- C7 (counterexample): the claim says an unsupported media kind fails
before any temporary resource (local or remote) is created.  In the code
the local temp file is written before the MIME check (app.py lines
44-46), so the trace of a `application/pdf` request contains the local
temp-file creation; moreover the `HTTPException(400)` is swallowed by
the generic `except Exception` handler and surfaces as status 500. -/
theorem C7_counterexample :
    analyze_media 1 okBehavior "application/pdf" =
        some ([Ev.writeTempLocal, Ev.removeTempLocal], Except.error 500) ∧
      Ev.writeTempLocal ∈ [Ev.writeTempLocal, Ev.removeTempLocal] :=
  ⟨rfl, by decide⟩

/-- C7 (amended): for every request whose MIME type starts with neither
"audio/" nor "video/", the orchestrator fails before any remote call or
remote resource creation — but only after writing the local temp file,
which the `finally` block then removes; the rejection reaches the caller
as HTTP 500 (the 400 raised inside the `try` is converted by the generic
handler). -/
theorem C7_amended (fuel : Nat) (b : GeminiBehavior) (mime : String)
    (ha : pyStartswith mime "audio/" = false)
    (hv : pyStartswith mime "video/" = false) :
    analyze_media fuel b mime =
      some ([Ev.writeTempLocal, Ev.removeTempLocal], Except.error 500) := by
  unfold analyze_media
  simp [ha, hv]

/-- C7 (witness): `C7_amended` applied to a concrete PDF upload. -/
theorem C7_witness :
    analyze_media 1 okBehavior "application/pdf" =
      some ([Ev.writeTempLocal, Ev.removeTempLocal], Except.error 500) :=
  C7_amended 1 okBehavior "application/pdf" rfl rfl

/-! ## Claim C8 -/

/-- C8 (counterexample): the claim says the upload-status polling loop
performs a bounded number of poll attempts and raises a timeout once
they are exhausted.  The loop `while state == "PROCESSING"` has no
attempt counter at all: for every candidate bound `B` there is a service
behavior that keeps the loop polling more than `B` times before
terminating, so no bound exists. -/
theorem C8_counterexample :
    ¬ ∃ B : Nat, ∀ (next : Nat → FileState) (fuel : Nat) (s : FileState)
        (r : FileState × Nat),
        pollFile next fuel s 0 = some r → r.2 ≤ B := by
  rintro ⟨B, hB⟩
  have hrun := pollFile_run
    (fun k => if k < B then FileState.processing else FileState.active) B 0
    (B + 1)
    (fun k _ hk => if_pos (by omega))
    (by simp)
    (Nat.le_refl (B + 1))
  have hle := hB _ (B + 1) FileState.processing _ hrun
  simp at hle

/-- C8 (amended): the polling loop sleeps a fixed delay between polls
(5s audio, 10s video — the `Ev.sleepSec` events) and terminates exactly
when the reported state leaves `PROCESSING`: if the first `m` polls
report `PROCESSING` and the next one does not, it exits after `m + 1`
`get_file` calls; there is no attempt bound and no timeout — against a
service that stays `PROCESSING` the loop never exits, for any fuel. -/
theorem C8_amended :
    (∀ (next : Nat → FileState) (m fuel : Nat),
      (∀ k, k < m → next k = FileState.processing) →
      next m ≠ FileState.processing → m + 1 ≤ fuel →
      pollFile next fuel FileState.processing 0 = some (next m, m + 1)) ∧
    (∀ fuel : Nat,
      pollFile (fun _ => FileState.processing) fuel FileState.processing 0 =
        none) := by
  constructor
  · intro next m fuel hpre hstop hfuel
    have h := pollFile_run next m 0 fuel
      (fun k _ hk => hpre k (by omega)) (by simpa using hstop) hfuel
    simpa using h
  · intro fuel
    exact pollFile_allProcessing fuel 0

/-- C8 (witness): `C8_amended` applied to a service whose file is ready
at the first poll: the loop exits after exactly one `get_file` call. -/
theorem C8_witness :
    pollFile (fun _ => FileState.active) 1 FileState.processing 0 =
      some (FileState.active, 1) :=
  C8_amended.1 (fun _ => FileState.active) 0 1
    (fun k hk => absurd hk (Nat.not_lt_zero k)) (by decide) (by decide)

/-! ## Claim C9 -/

set_option maxRecDepth 40000 in
/-- C9 (counterexample): the claim says the video prompt lists
Storyline/Narrative, Acting Quality, Cinematography/Visuals, Market
Potential in that order.  In the prompt string of `analyze_video` the
keys are numbered 1. Storyline_Narrative, 2. Acting_Quality,
3. Market_Potential, 4. Cinematography_Visuals: Market_Potential comes
before Cinematography_Visuals, not after it. -/
theorem C9_counterexample :
    occursBefore videoPrompt "Cinematography_Visuals" "Market_Potential" =
        false ∧
      occursBefore videoPrompt "Market_Potential" "Cinematography_Visuals" =
        true :=
  ⟨rfl, rfl⟩

set_option maxRecDepth 40000 in
/-- C9 (amended): each pipeline's prompt lists its four category keys,
audio in the order Rhythm_Groove_Quality, Sound_Production_Quality,
Lyrical_Content_Vocal_Delivery, Market_Potential (as the claim states),
but video in the order Storyline_Narrative, Acting_Quality,
Market_Potential, Cinematography_Visuals — Market Potential third, not
last (first occurrences in the prompt text, strictly ordered). -/
theorem C9_amended :
    (occursBefore audioPrompt "Rhythm_Groove_Quality"
        "Sound_Production_Quality" = true ∧
      occursBefore audioPrompt "Sound_Production_Quality"
        "Lyrical_Content_Vocal_Delivery" = true ∧
      occursBefore audioPrompt "Lyrical_Content_Vocal_Delivery"
        "Market_Potential" = true) ∧
    (occursBefore videoPrompt "Storyline_Narrative" "Acting_Quality" =
        true ∧
      occursBefore videoPrompt "Acting_Quality" "Market_Potential" = true ∧
      occursBefore videoPrompt "Market_Potential" "Cinematography_Visuals" =
        true) :=
  ⟨⟨rfl, rfl, rfl⟩, ⟨rfl, rfl, rfl⟩⟩
